import Mathlib

/-
Verification of the ProcessDesignPro balance engine.

Shallow embedding of `src/core/models.py` and `src/core/data_sync.py`.
Python floats are embedded as rationals (exact arithmetic with the same
decimal literals), dicts as association lists with unique keys, SQLite
tables as lists of records keyed by their id column, and `datetime`
columns are omitted (no claim mentions them).  Python truthiness of an
optional float (`if x:`) is `qTruthy`: false for `None` and for `0`.
-/

/-- Truthiness of an optional number, as Python `if x:` sees it:
`None` and `0` are falsy. -/
def qTruthy : Option ℚ → Bool
  | some x => x != 0
  | none => false

/-- Value of an optional number, `0` when absent. -/
def qVal : Option ℚ → ℚ
  | some x => x
  | none => 0

/-- Lookup in a composition / parameter dict (association list). -/
def lookupQ (l : List (String × ℚ)) (k : String) : Option ℚ :=
  (l.find? (fun p => p.1 == k)).map Prod.snd

/-- Python `k in d` on a dict embedded as an association list. -/
def hasKey (l : List (String × ℚ)) (k : String) : Bool :=
  l.any (fun p => p.1 == k)

/-- Python `sum(d.values())`. -/
def sumVals (l : List (String × ℚ)) : ℚ :=
  (l.map Prod.snd).sum

/-- `ProcessMaterial` from src/core/models.py (the fields the balance
engine reads; `properties` is never read by it). -/
structure ProcessMaterial where
  stream_id : String
  name : String
  phase : String := "liquid"
  temperature : Option ℚ := none
  pressure : Option ℚ := none
  flow_rate : Option ℚ := none
  composition : List (String × ℚ) := []
  source_unit : Option String := none
  destination_unit : Option String := none
deriving DecidableEq

/-- `ProcessUnit` from src/core/models.py; `parameters` restricted to the
numeric entries the heat balance reads (`reaction_heat`). -/
structure ProcessUnit where
  unit_id : String
  name : String
  type : String
  parameters : List (String × ℚ) := []
deriving DecidableEq

/-- `MaterialParameter` from src/core/models.py (the field the heat
balance reads). -/
structure MaterialParameter where
  material_id : String
  name : String
  specific_heat : Option ℚ := none
deriving DecidableEq

/-- One entry of `results["components"]` in
`MaterialBalance.calculate_balance`. -/
structure ComponentBalance where
  input : ℚ
  output : ℚ
  difference : ℚ
  conversion : ℚ
deriving DecidableEq

/-- The `results` payload built by `MaterialBalance.calculate_balance`
(src/core/models.py lines 246-293). -/
structure BalanceResults where
  total_input : ℚ
  total_output : ℚ
  components : List (String × ComponentBalance)
  is_balanced : Bool
  total_difference : ℚ
  difference_percent : ℚ
deriving DecidableEq

/-- `MaterialBalance` from src/core/models.py.  The dataclass default for
`tolerance` is `0.01` (the field comment gives its unit as percent). -/
structure MaterialBalance where
  unit_id : String
  input_streams : List String := []
  output_streams : List String := []
  balance_status : String := "pending"
  calculated_data : Option BalanceResults := none
  tolerance : ℚ := 1 / 100
deriving DecidableEq

/-- Python set-union of composition keys, deduplicated (the claims do not
depend on the iteration order of the set). -/
def dedupKeys (l : List String) : List String :=
  l.foldl (fun acc x => if acc.contains x then acc else acc ++ [x]) []

/-- The component-key set of `calculate_balance`: union of all
composition keys across all streams. -/
def allComponentKeys (streams : List ProcessMaterial) : List String :=
  dedupKeys (streams.foldl (fun acc s => acc ++ s.composition.map Prod.fst) [])

/-- Sum of `flow_rate` over streams with truthy flow
(`if stream.flow_rate: results[...] += stream.flow_rate`). -/
def totalFlowSum (streams : List ProcessMaterial) : ℚ :=
  streams.foldl (fun acc s => if qTruthy s.flow_rate then acc + qVal s.flow_rate else acc) 0

/-- Sum of `flow_rate * composition[c]` over streams with truthy flow
containing component `c`. -/
def compFlowSum (streams : List ProcessMaterial) (c : String) : ℚ :=
  streams.foldl (fun acc s =>
    if qTruthy s.flow_rate && hasKey s.composition c
    then acc + qVal s.flow_rate * qVal (lookupQ s.composition c)
    else acc) 0

/-- `MaterialBalance.calculate_balance` (src/core/models.py 243-301):
returns the mutated record (status and payload updated, tolerance kept)
together with the `results` dict it returns. -/
def MaterialBalance.calculate_balance (b : MaterialBalance)
    (input_streams_data output_streams_data : List ProcessMaterial) :
    MaterialBalance × BalanceResults :=
  let total_input := totalFlowSum input_streams_data
  let total_output := totalFlowSum output_streams_data
  let comps := allComponentKeys (input_streams_data ++ output_streams_data)
  let components := comps.map (fun c =>
    let ci := compFlowSum input_streams_data c
    let co := compFlowSum output_streams_data c
    (c, ComponentBalance.mk ci co (co - ci) (if 0 < ci then (ci - co) / ci * 100 else 0)))
  let total_difference := total_output - total_input
  let difference_percent :=
    if 0 < total_input then |total_difference| / total_input * 100 else 100
  let isb := decide (difference_percent ≤ b.tolerance)
  let results : BalanceResults :=
    ⟨total_input, total_output, components, isb, total_difference, difference_percent⟩
  ({ b with balance_status := if isb then "balanced" else "unbalanced",
            calculated_data := some results }, results)

/-- C1 input stream: 1000 kg/h into U1. -/
def c1StreamIn : ProcessMaterial :=
  { stream_id := "S1", name := "feed", flow_rate := some 1000, destination_unit := some "U1" }

/-- C1 output stream: 999 kg/h out of U1 (0.1 percent imbalance). -/
def c1StreamOut : ProcessMaterial :=
  { stream_id := "S2", name := "prod", flow_rate := some 999, source_unit := some "U1" }

/-- C1 counterexample: for a default-tolerance record, an imbalance of
0.1 percent (input 1000, output 999) has `difference_percent ≤ 1` yet
`is_balanced` is false: the code compares the percent value against the
raw default `0.01`, so the claimed 1-percent default does not hold. -/
theorem c1_counterexample :
    ¬ (((MaterialBalance.calculate_balance { unit_id := "U1" } [c1StreamIn] [c1StreamOut]).2.is_balanced = true)
        ↔ (MaterialBalance.calculate_balance { unit_id := "U1" } [c1StreamIn] [c1StreamOut]).2.difference_percent ≤ 1) := by
  norm_num [MaterialBalance.calculate_balance, totalFlowSum, compFlowSum, allComponentKeys,
    dedupKeys, qTruthy, qVal, c1StreamIn, c1StreamOut, List.foldl]

/-- C1 (amended): for every MaterialBalance record created without an
explicit tolerance, `calculate_balance` sets `is_balanced` to true iff
`difference_percent ≤ 0.01`: the default balance tolerance acts as 0.01
percent of total input flow, not 1 percent. -/
theorem c1_default_tolerance (u : String) (ins outs : List ProcessMaterial) :
    ((MaterialBalance.calculate_balance { unit_id := u } ins outs).2.is_balanced = true
      ↔ (MaterialBalance.calculate_balance { unit_id := u } ins outs).2.difference_percent ≤ 1 / 100) := by
  simp [MaterialBalance.calculate_balance]

/-- C8: `calculate_balance` is idempotent: rerunning on the record
returned by a first run, with unchanged streams, produces the identical
`results` payload, and leaves `balance_status` and `calculated_data`
unchanged (the run never changes `tolerance`, the only record field the
computation reads). -/
theorem c8_calculate_balance_idempotent (b : MaterialBalance) (ins outs : List ProcessMaterial) :
    (MaterialBalance.calculate_balance (MaterialBalance.calculate_balance b ins outs).1 ins outs).2
      = (MaterialBalance.calculate_balance b ins outs).2
    ∧ (MaterialBalance.calculate_balance (MaterialBalance.calculate_balance b ins outs).1 ins outs).1.balance_status
      = (MaterialBalance.calculate_balance b ins outs).1.balance_status
    ∧ (MaterialBalance.calculate_balance (MaterialBalance.calculate_balance b ins outs).1 ins outs).1.calculated_data
      = (MaterialBalance.calculate_balance b ins outs).1.calculated_data := by
  exact ⟨rfl, rfl, rfl⟩

/-- `MaterialParameter` lookup used by the heat balance
(`material_dict.get(material_id)`). -/
def findMaterial (mats : List MaterialParameter) (mid : String) : Option MaterialParameter :=
  mats.find? (fun m => m.material_id == mid)

/-- The stream guard of the heat balance loop
(`if not stream.temperature or not stream.flow_rate or not
stream.composition: continue`). -/
def streamUsable (s : ProcessMaterial) : Bool :=
  qTruthy s.temperature && qTruthy s.flow_rate && !s.composition.isEmpty

/-- Sensible heat of one stream (src/core/data_sync.py 358-367):
`Q = (flow_rate * fraction / 3600) * specific_heat * (T - 25)`, summed
over the components whose material has a truthy specific heat. -/
def streamSensibleHeat (mats : List MaterialParameter) (s : ProcessMaterial) : ℚ :=
  s.composition.foldl (fun acc p =>
    match findMaterial mats p.1 with
    | some m =>
      if qTruthy m.specific_heat && qTruthy s.flow_rate
      then acc + qVal s.flow_rate * p.2 / 3600 * qVal m.specific_heat * (qVal s.temperature - 25)
      else acc
    | none => acc) 0

/-- `unit.parameters.get(key, 0)` on the numeric parameter map. -/
def getParamQ (u : ProcessUnit) (k : String) : ℚ :=
  (lookupQ u.parameters k).getD 0

/-- Result of `_calculate_heat_balance_for_unit`'s computation phase
(src/core/data_sync.py 344-410). -/
structure HeatResult where
  input_heat : List (String × ℚ)
  output_heat : List (String × ℚ)
  total_input_heat : ℚ
  total_output_heat : ℚ
  heat_loss : ℚ
  efficiency : Option ℚ
  balance_status : String
deriving DecidableEq

/-- The computation spelled out by lines 344-410 of
`_calculate_heat_balance_for_unit`: classify usable streams into input
(destination = unit) and output (else source = unit) heat sources keyed
`"stream_<id>"`, add a nonzero `reaction_heat` parameter to the input
side under `"reaction"`, then add a 5-percent heat loss to the output
side under `"heat_loss"`.  UNREACHABLE in the program: every run raises
at line 331 before these lines execute (see `calcHeatBalanceForUnit`),
so this definition records the intent the spec describes, not behaviour
the program exhibits. -/
def computeHeat (u : ProcessUnit) (streams : List ProcessMaterial)
    (mats : List MaterialParameter) : HeatResult :=
  let usable := streams.filter streamUsable
  let inputs := usable.filter (fun s => s.destination_unit == some u.unit_id)
  let outputs := usable.filter (fun s =>
    !(s.destination_unit == some u.unit_id) && s.source_unit == some u.unit_id)
  let inEntries := inputs.map (fun s => ("stream_" ++ s.stream_id, streamSensibleHeat mats s))
  let outEntries := outputs.map (fun s => ("stream_" ++ s.stream_id, streamSensibleHeat mats s))
  let rh := getParamQ u "reaction_heat"
  let inEntries1 := if rh ≠ 0 then inEntries ++ [("reaction", rh)] else inEntries
  let ti := if rh ≠ 0 then sumVals inEntries + rh else sumVals inEntries
  let hl := ti * (5 / 100)
  let outEntries1 := outEntries ++ [("heat_loss", hl)]
  let to1 := sumVals outEntries + hl
  let eff := if 0 < ti then some ((to1 - hl) / ti * 100) else none
  ⟨inEntries1, outEntries1, ti, to1, hl, eff,
    if |to1 - ti| < 1 / 100 then "calculated" else "unbalanced"⟩

/-- C7 concrete unit: no streams, `reaction_heat = 500`. -/
def c7unit : ProcessUnit :=
  { unit_id := "U0", name := "R", type := "reactor", parameters := [("reaction_heat", 500)] }

/-- Whether `pat` occurs as a contiguous sublist. -/
def listInfix (pat : List Char) : List Char → Bool
  | [] => pat.isEmpty
  | c :: rest => pat.isPrefixOf (c :: rest) || listInfix pat rest

/-- Substring test: `pat in s` in Python / `LIKE '%pat%'` in SQL. -/
def containsSub (s pat : String) : Bool :=
  listInfix pat.data s.data

/-- `material_balance` table row (the columns the engine writes;
timestamps omitted). -/
structure MBRecord where
  unit_id : String
  balance_status : String := "pending"
  calculated_data : Option BalanceResults := none
deriving DecidableEq

/-- `heat_balance` table row (the columns the engine writes). -/
structure HBRecord where
  unit_id : String
  input_heat : List (String × ℚ) := []
  output_heat : List (String × ℚ) := []
  heat_loss : ℚ := 0
  efficiency : Option ℚ := none
  balance_status : String := "pending"
deriving DecidableEq

/-- `water_balance` table row (the columns the engine writes). -/
structure WBRecord where
  unit_id : String
  fresh_water_in : ℚ := 0
  recycled_water_in : ℚ := 0
  water_consumption : ℚ := 0
  wastewater_out : ℚ := 0
  reuse_possibilities : String := ""
deriving DecidableEq

/-- `equipment_list` table row (the columns the unit-sync handlers use). -/
structure EquipmentItem where
  equipment_id : String
  name : String := ""
  type : String := ""
deriving DecidableEq

/-- The SQLite store as the sync engine sees it. -/
structure DB where
  process_flow : List ProcessUnit := []
  process_materials : List ProcessMaterial := []
  material_params : List MaterialParameter := []
  material_balance : List MBRecord := []
  heat_balance : List HBRecord := []
  water_balance : List WBRecord := []
  equipment_list : List EquipmentItem := []
deriving DecidableEq

/-- `SELECT * FROM process_materials WHERE source_unit = ? OR
destination_unit = ?`. -/
def streamsForUnit (db : DB) (uid : String) : List ProcessMaterial :=
  db.process_materials.filter (fun s =>
    s.source_unit == some uid || s.destination_unit == some uid)

/-- Whether a `material_balance` row with this `unit_id` exists. -/
def hasMB (t : List MBRecord) (uid : String) : Bool :=
  t.any (fun r => r.unit_id == uid)

/-- First `material_balance` row with this `unit_id`. -/
def getMB (t : List MBRecord) (uid : String) : Option MBRecord :=
  t.find? (fun r => r.unit_id == uid)

/-- Whether a `heat_balance` row with this `unit_id` exists. -/
def hasHB (t : List HBRecord) (uid : String) : Bool :=
  t.any (fun r => r.unit_id == uid)

/-- First `water_balance` row with this `unit_id`. -/
def getWB (t : List WBRecord) (uid : String) : Option WBRecord :=
  t.find? (fun r => r.unit_id == uid)

/-- The create-if-missing step at the top of
`_calculate_material_balance_for_unit` (src/core/data_sync.py 252-267):
when no row exists for the unit, a fresh row with status `"calculated"`
and no payload is inserted and committed before the streams are read. -/
def ensureMBTable (t : List MBRecord) (uid : String) : List MBRecord :=
  if hasMB t uid then t else t ++ [{ unit_id := uid, balance_status := "calculated" }]

/-- Input streams of the unit (`stream.destination_unit == unit_id`). -/
def mbInputs (db : DB) (uid : String) : List ProcessMaterial :=
  (streamsForUnit db uid).filter (fun s => s.destination_unit == some uid)

/-- Output streams of the unit (the `elif stream.source_unit == unit_id`
branch: a self-loop stream is classified as input only). -/
def mbOutputs (db : DB) (uid : String) : List ProcessMaterial :=
  (streamsForUnit db uid).filter (fun s =>
    !(s.destination_unit == some uid) && s.source_unit == some uid)

/-- The `material_balance` table after one run of
`_calculate_material_balance_for_unit` (src/core/data_sync.py 248-317).
The whole body is wrapped in one `try/except` and each database write is
committed immediately, so the run has three outcomes: early return after
the create-if-missing insert (no input and no output streams), a full run
updating the row with status and payload (`ok = true`), or an exception
after the insert (`ok = false`, e.g. the row-to-model conversion
`ProcessMaterial.from_dict` at line 281, a method the model class does
not define) which is caught and leaves everything after the insert
unwritten. -/
def mbTableAfter (ok : Bool) (db : DB) (uid : String) : List MBRecord :=
  if (mbInputs db uid).isEmpty && (mbOutputs db uid).isEmpty then
    ensureMBTable db.material_balance uid
  else if ok then
    (ensureMBTable db.material_balance uid).map (fun r =>
      if r.unit_id == uid then
        { r with
          balance_status :=
            (MaterialBalance.calculate_balance { unit_id := uid }
              (mbInputs db uid) (mbOutputs db uid)).1.balance_status,
          calculated_data :=
            some (MaterialBalance.calculate_balance { unit_id := uid }
              (mbInputs db uid) (mbOutputs db uid)).2 }
      else r)
  else ensureMBTable db.material_balance uid

/-- One run of `_calculate_material_balance_for_unit`; `ok` tells whether
the computation phase between the two commits completes without raising. -/
def calcMaterialBalanceRun (ok : Bool) (db : DB) (uid : String) : DB :=
  { db with material_balance := mbTableAfter ok db uid }

/-- A run of `_calculate_material_balance_for_unit` whose computation
phase does not raise. -/
def calcMaterialBalanceForUnit (db : DB) (uid : String) : DB :=
  calcMaterialBalanceRun true db uid

/-- `SELECT * FROM process_flow WHERE unit_id = ?`. -/
def findUnit (db : DB) (uid : String) : Option ProcessUnit :=
  db.process_flow.find? (fun u => u.unit_id == uid)

/-- The query-then-update-or-insert persistence pattern shared by the
heat and water calculators. -/
def upsertBy {α : Type} (key : α → String) (t : List α) (w : α) : List α :=
  if t.any (fun r => key r == key w)
  then t.map (fun r => if key r == key w then w else r)
  else t ++ [w]

/-- One run of `_calculate_heat_balance_for_unit`
(src/core/data_sync.py 319-477).  It never writes: when the unit row is
absent the run returns at line 328; when it exists, line 331 passes the
`SELECT *` row into `ProcessUnit.from_dict`, which forwards the SQL `id`
column to the dataclass constructor — not a field, so the call raises
TypeError before any computation (and `ProcessMaterial.from_dict` at
line 353 is likewise undefined); the `except` at line 476 catches it and
nothing is persisted.  Both paths leave the store unchanged. -/
def calcHeatBalanceForUnit (db : DB) (uid : String) : DB :=
  match findUnit db uid with
  | none => db
  | some _ => db

/-- C7 (code bug): the reaction-heat and heat-loss accounting the claim
states is exactly what the unreachable lines 376-385 spell out — in
`computeHeat`, a nonzero `reaction_heat` joins the input side under key
"reaction", `heat_loss` is 5 percent of total input heat, and the
streams-free 500 kW unit would yield totals 500 and 25 — but the program
never executes them: every heat-balance run returns early or crashes at
line 331 and writes nothing, for every store and unit id. -/
theorem c7_heat_run_never_writes (db : DB) (uid : String) :
    calcHeatBalanceForUnit db uid = db
    ∧ ("reaction", getParamQ c7unit "reaction_heat") ∈ (computeHeat c7unit [] []).input_heat
    ∧ (computeHeat c7unit [] []).total_input_heat = 500
    ∧ (computeHeat c7unit [] []).heat_loss = 25 := by
  refine ⟨?_, ?_, ?_, ?_⟩
  · unfold calcHeatBalanceForUnit
    cases findUnit db uid <;> rfl
  · norm_num [computeHeat, getParamQ, lookupQ, c7unit, sumVals, List.find?]
  · norm_num [computeHeat, getParamQ, lookupQ, c7unit, sumVals, List.find?]
  · norm_num [computeHeat, getParamQ, lookupQ, c7unit, sumVals, List.find?]

/-- The water-stream query of `_calculate_water_balance_for_unit`
(src/core/data_sync.py 483-488): endpoint matches the unit and the
serialized composition contains "water" (its keys are the only text in
it) or the name contains the water marker. -/
def waterStreamQueryMatch (uid : String) (s : ProcessMaterial) : Bool :=
  (s.source_unit == some uid || s.destination_unit == some uid)
  && (s.composition.any (fun p => containsSub p.1 "water") || containsSub s.name "水")

/-- Water content of one stream (src/core/data_sync.py 497-502). -/
def waterContent (s : ProcessMaterial) : ℚ :=
  match lookupQ s.composition "water" with
  | some f => f
  | none => if containsSub s.name "水" then 1 else 0

/-- `water_input`: summed water flow of matched streams entering the
unit. -/
def waterInput (db : DB) (uid : String) : ℚ :=
  (db.process_materials.filter (waterStreamQueryMatch uid)).foldl
    (fun acc s =>
      if qTruthy s.flow_rate && s.destination_unit == some uid
      then acc + qVal s.flow_rate * waterContent s else acc) 0

/-- `water_output`: summed water flow of matched streams leaving the unit
(the `elif` branch). -/
def waterOutput (db : DB) (uid : String) : ℚ :=
  (db.process_materials.filter (waterStreamQueryMatch uid)).foldl
    (fun acc s =>
      if qTruthy s.flow_rate && (!(s.destination_unit == some uid)
          && s.source_unit == some uid)
      then acc + qVal s.flow_rate * waterContent s else acc) 0

/-- The `water_balance` row built by lines 511-522 of
`_calculate_water_balance_for_unit`: `recycled_water_in` is the literal
0.0 and `water_consumption` is clamped at 0.  The run only reaches this
write when no stream matched the water query, in which case every sum
here is 0. -/
def waterRecordOf (db : DB) (uid : String) : WBRecord :=
  { unit_id := uid,
    fresh_water_in := waterInput db uid,
    recycled_water_in := 0,
    water_consumption :=
      if 0 < waterInput db uid - waterOutput db uid
      then waterInput db uid - waterOutput db uid else 0,
    wastewater_out := waterOutput db uid,
    reuse_possibilities := "待分析" }

/-- One run of `_calculate_water_balance_for_unit`
(src/core/data_sync.py 479-576).  When any stream matches the water
query, the first loop iteration (line 495) calls
`ProcessMaterial.from_dict` — a method the model class does not define —
so the run raises AttributeError, the `except` at line 575 catches it,
and nothing is written.  Only when no stream matches does the run reach
the write: the loop is skipped, all sums stay 0, and the computed row is
upserted. -/
def calcWaterBalanceForUnit (db : DB) (uid : String) : DB :=
  if (db.process_materials.filter (waterStreamQueryMatch uid)).isEmpty then
    { db with water_balance := upsertBy WBRecord.unit_id db.water_balance (waterRecordOf db uid) }
  else db

/-- `_delete_equipment_for_unit` (src/core/data_sync.py 824-831):
`DELETE FROM equipment_list WHERE equipment_id = "EQ-" + unit_id`. -/
def deleteEquipmentForUnit (db : DB) (uid : String) : DB :=
  { db with equipment_list :=
      db.equipment_list.filter (fun e => !(e.equipment_id == "EQ-" ++ uid)) }

/-- `_remove_material_from_streams` (src/core/data_sync.py 580-604).  It
never modifies any composition: when the `LIKE '%id%'` prefilter finds a
candidate stream (its serialized composition contains the material id —
the keys are the only text in it), the first loop iteration (line 588)
calls the undefined `ProcessMaterial.from_dict` and the AttributeError
propagates (this helper has no try of its own), so no row is updated;
with no candidate the loop is skipped.  Either way the store is
unchanged; the exception surfaces in `sync_data`, whose except reports a
sync-failed event. -/
def removeMaterialFromStreams (db : DB) (mid : String) : DB :=
  if (db.process_materials.filter
      (fun s => s.composition.any (fun p => containsSub p.1 mid))).isEmpty
  then db
  else db

/-- Propagation of `sync_data("process_flow", "delete", unit_id)`:
the rule table dispatches, in order, `_sync_unit_to_equipment` (delete
branch: `_delete_equipment_for_unit`), `_sync_unit_to_balance` (delete
branch: recalculate the material balance) and `_sync_unit_to_heat`
(recalculate the heat balance — a run that never writes, see
`calcHeatBalanceForUnit`). -/
def syncUnitDelete (db : DB) (uid : String) : DB :=
  calcHeatBalanceForUnit (calcMaterialBalanceForUnit (deleteEquipmentForUnit db uid) uid) uid

/-- The four source modules of `_initialize_sync_rules`
(src/core/data_sync.py 31-71). -/
def syncModules : List String :=
  ["material_params", "process_materials", "process_flow", "equipment_list"]

/-- The ordered target list of each source module in the rule table. -/
def syncTargets (m : String) : List String :=
  if m == "material_params" then ["process_materials", "material_balance", "heat_balance"]
  else if m == "process_materials" then
    ["material_balance", "heat_balance", "water_balance", "process_flow"]
  else if m == "process_flow" then ["equipment_list", "material_balance", "heat_balance"]
  else if m == "equipment_list" then ["material_balance", "heat_balance", "water_balance"]
  else []

/-- Membership of a source module in the rule table. -/
def inSyncRules (m : String) : Bool :=
  syncModules.contains m

/-- Every module's trigger list in the rule table. -/
def syncTriggers : List String :=
  ["add", "update", "delete"]

/-- The `for target_module in rules["targets"]` loop of `sync_data`
(src/core/data_sync.py 91-96), inside one `try`: handlers run in order
until one raises; `fails t` tells whether target `t`'s handler raises.
Returns the invoked targets and whether the loop completed. -/
def dispatchTargets (fails : String → Bool) : List String → List String × Bool
  | [] => ([], true)
  | t :: ts =>
    if fails t then ([t], false)
    else
      let r := dispatchTargets fails ts
      (t :: r.1, r.2)

/-- Observable outcome of one `sync_data` call: the invoked targets and
the emitted `sync_completed` events (description, success flag). -/
structure SyncResult where
  invoked : List String
  events : List (String × Bool)
deriving DecidableEq

/-- `sync_data` (src/core/data_sync.py 73-102): no-op outside the rule
table or the trigger list; otherwise dispatch the targets and emit one
`sync_completed` event — success with the joined target list, or failure
with the source module name when a handler raised. -/
def sync_data (fails : String → Bool) (source_module operation : String) : SyncResult :=
  if !inSyncRules source_module then ⟨[], []⟩
  else if !syncTriggers.contains operation then ⟨[], []⟩
  else
    let r := dispatchTargets fails (syncTargets source_module)
    ⟨r.1,
      [(if r.2
        then source_module ++ "->" ++ String.intercalate "," (syncTargets source_module)
        else source_module, r.2)]⟩

/-- A failure-free prefix followed by a failing target makes the dispatch
loop stop right after the failing handler. -/
theorem dispatchTargets_first_fail (fails : String → Bool) :
    ∀ pre t post, (∀ s ∈ pre, fails s = false) → fails t = true →
      dispatchTargets fails (pre ++ t :: post) = (pre ++ [t], false) := by
  intro pre
  induction pre with
  | nil =>
    intro t post _ ht
    simp [dispatchTargets, ht]
  | cons a l ih =>
    intro t post hpre ht
    have ha : fails a = false := hpre a (by simp)
    have hrec := ih t post (fun s hs => hpre s (by simp [hs])) ht
    simp [dispatchTargets, ha, hrec]

/-- When no handler raises, the dispatch loop invokes every target and
reports success. -/
theorem dispatchTargets_all_ok (fails : String → Bool) :
    ∀ ts, (∀ s ∈ ts, fails s = false) → dispatchTargets fails ts = (ts, true) := by
  intro ts
  induction ts with
  | nil => intro _; rfl
  | cons a l ih =>
    intro h
    have ha : fails a = false := h a (by simp)
    have hrec := ih (fun s hs => h s (by simp [hs]))
    simp [dispatchTargets, ha, hrec]

/-- Updating every key-matching row of a table makes the first
key-matching row the written record. -/
theorem find_map_update {α : Type} (key : α → String) (k : String) (w : α)
    (hw : (key w == k) = true) :
    ∀ t : List α, t.any (fun r => key r == k) = true →
      (t.map (fun r => if key r == k then w else r)).find? (fun r => key r == k)
        = some w := by
  intro t
  induction t with
  | nil => intro h; simp at h
  | cons a l ih =>
    intro h
    cases hk : (key a == k) with
    | true =>
      rw [List.map_cons, if_pos hk]
      exact List.find?_cons_of_pos _ hw
    | false =>
      rw [List.map_cons, if_neg (by simp [hk])]
      have hstep := List.find?_cons_of_neg
        (List.map (fun r => if key r == k then w else r) l) (p := fun r => key r == k)
        (a := a) (by simp [hk])
      rw [hstep]
      exact ih (by simpa [List.any_cons, hk] using h)

/-- Appending a fresh row to a table with no key-matching row makes it
the first key-matching row. -/
theorem find_append_single {α : Type} (key : α → String) (k : String) (w : α)
    (hw : (key w == k) = true) :
    ∀ t : List α, t.any (fun r => key r == k) = false →
      (t ++ [w]).find? (fun r => key r == k) = some w := by
  intro t
  induction t with
  | nil => intro _; exact List.find?_cons_of_pos _ hw
  | cons a l ih =>
    intro h
    rw [List.any_cons, Bool.or_eq_false_iff] at h
    rw [List.cons_append, List.find?_cons_of_neg _ (by simp [h.1])]
    exact ih h.2

/-- Looking up the written key after an upsert returns the written
record. -/
theorem find_upsertBy {α : Type} (key : α → String) (t : List α) (w : α) :
    (upsertBy key t w).find? (fun r => key r == key w) = some w := by
  by_cases h : t.any (fun r => key r == key w) = true
  · rw [upsertBy, if_pos h, find_map_update key (key w) w (by simp) t h]
  · rw [upsertBy, if_neg h]
    exact find_append_single key (key w) w (by simp) t (by simpa using h)

/-- A row present after an upsert is an old row or the written record. -/
theorem mem_upsertBy {α : Type} (key : α → String) (t : List α) (w r : α)
    (h : r ∈ upsertBy key t w) : r ∈ t ∨ r = w := by
  unfold upsertBy at h
  split at h
  · obtain ⟨a, ha, hr⟩ := List.mem_map.mp h
    by_cases hk : (key a == key w) = true
    · right
      rw [if_pos hk] at hr
      exact hr.symm
    · left
      rw [if_neg hk] at hr
      exact hr ▸ ha
  · rcases List.mem_append.mp h with h1 | h1
    · left; exact h1
    · right; simpa using h1

/-- The create-if-missing step leaves a row for the unit in the table. -/
theorem hasMB_ensureMBTable (t : List MBRecord) (uid : String) :
    hasMB (ensureMBTable t uid) uid = true := by
  unfold ensureMBTable
  by_cases h : hasMB t uid = true
  · rwa [if_pos h]
  · rw [if_neg h]
    unfold hasMB
    rw [List.any_eq_true]
    exact ⟨{ unit_id := uid, balance_status := "calculated" },
      List.mem_append_right _ (List.mem_singleton_self _), by simp⟩

/-- Mapping a table with a function that does not change whether a row
satisfies the predicate preserves `any`. -/
theorem any_map_of_pres {α : Type} (g : α → α) (p : α → Bool)
    (hp : ∀ r, p (g r) = p r) :
    ∀ t : List α, (t.map g).any p = t.any p := by
  intro t
  induction t with
  | nil => rfl
  | cons a l ih => simp [List.map_cons, List.any_cons, hp, ih]

/-- A material-balance run never deletes the unit's row: afterwards a row
for the unit always exists (it is created when missing). -/
theorem hasMB_mbTableAfter (ok : Bool) (db : DB) (uid : String) :
    hasMB (mbTableAfter ok db uid) uid = true := by
  unfold mbTableAfter
  split
  · exact hasMB_ensureMBTable _ _
  · split
    · have hp : ∀ r : MBRecord,
          (((if r.unit_id == uid then
              { r with
                balance_status :=
                  (MaterialBalance.calculate_balance { unit_id := uid }
                    (mbInputs db uid) (mbOutputs db uid)).1.balance_status,
                calculated_data :=
                  some (MaterialBalance.calculate_balance { unit_id := uid }
                    (mbInputs db uid) (mbOutputs db uid)).2 }
            else r) : MBRecord).unit_id == uid) = (r.unit_id == uid) := by
        intro r
        split <;> rfl
      unfold hasMB
      rw [any_map_of_pres _ _ hp]
      exact hasMB_ensureMBTable _ _
    · exact hasMB_ensureMBTable _ _

/-- C9 concrete stream: a pure-water stream of 10 kg/h leaving U1. -/
def c9stream : ProcessMaterial :=
  { stream_id := "S1", name := "WW", flow_rate := some 10,
    source_unit := some "U1", composition := [("water", 1)] }

/-- C9 concrete store: only the outgoing water stream (a store on which
the real water run raises and persists nothing). -/
def c9db : DB :=
  { process_materials := [c9stream] }

/-- C9 witness store: no streams, hence no water-matched stream — the
only kind of store whose water run persists a row. -/
def c9wdb : DB := {}

/-- C9 (code bug): the sign-guarded formula the claim states is what the
loop of lines 494-519 would persist, and it does hold of every row the
run actually writes — but the run persists a row only when no stream
matches the water query (then every sum is 0); whenever a water-matched
stream exists the run raises at the undefined
`ProcessMaterial.from_dict` (line 495) and persists nothing, as the
concrete 10 kg/h outflow store shows. -/
theorem c9_water_sign_guard (db : DB) (uid : String) :
    ((db.process_materials.filter (waterStreamQueryMatch uid)).isEmpty = false →
      calcWaterBalanceForUnit db uid = db)
    ∧ ((db.process_materials.filter (waterStreamQueryMatch uid)).isEmpty = true →
      getWB (calcWaterBalanceForUnit db uid).water_balance uid = some (waterRecordOf db uid))
    ∧ (waterRecordOf db uid).water_consumption
        = max 0 ((waterRecordOf db uid).fresh_water_in - (waterRecordOf db uid).wastewater_out)
    ∧ 0 ≤ (waterRecordOf db uid).water_consumption
    ∧ calcWaterBalanceForUnit c9db "U1" = c9db := by
  refine ⟨?_, ?_, ?_, ?_, ?_⟩
  · intro hne
    unfold calcWaterBalanceForUnit
    rw [hne]
    rfl
  · intro hem
    unfold calcWaterBalanceForUnit
    rw [hem]
    exact find_upsertBy WBRecord.unit_id db.water_balance (waterRecordOf db uid)
  · show (if 0 < waterInput db uid - waterOutput db uid
        then waterInput db uid - waterOutput db uid else 0)
      = max 0 (waterInput db uid - waterOutput db uid)
    rcases lt_or_le 0 (waterInput db uid - waterOutput db uid) with h | h
    · rw [if_pos h, max_eq_right h.le]
    · rw [if_neg (not_lt.mpr h), max_eq_left h]
  · show (0:ℚ) ≤ (if 0 < waterInput db uid - waterOutput db uid
        then waterInput db uid - waterOutput db uid else 0)
    split
    · linarith
    · exact le_refl 0
  · decide

/-- C9 witness: the theorem applied to the no-water-stream store,
discharging the emptiness hypothesis: the run persists the computed row,
whose consumption is 0. -/
theorem c9_witness :
    getWB (calcWaterBalanceForUnit c9wdb "U1").water_balance "U1"
      = some (waterRecordOf c9wdb "U1")
    ∧ (waterRecordOf c9wdb "U1").water_consumption = 0 := by
  refine ⟨(c9_water_sign_guard c9wdb "U1").2.1 (by decide), ?_⟩
  norm_num [waterRecordOf, waterInput, waterOutput, c9wdb, List.filter]

/-- C10: every water-balance row written by the per-unit water balance
calculation has `recycled_water_in = 0` — the only path that writes at
all upserts the row carrying the literal 0.0, and the crashing path
writes nothing — so any row present after a run is an old row or has
recycled water 0, for every store and unit id. -/
theorem c10_recycled_water_zero (db : DB) (uid : String) (r : WBRecord)
    (h : r ∈ (calcWaterBalanceForUnit db uid).water_balance) :
    r ∈ db.water_balance ∨ r.recycled_water_in = 0 := by
  unfold calcWaterBalanceForUnit at h
  split at h
  · rcases mem_upsertBy WBRecord.unit_id db.water_balance (waterRecordOf db uid) r h
      with h1 | h1
    · left
      exact h1
    · right
      rw [h1]
      rfl
  · left
    exact h

/-- C10 witness store: empty, so the run writes the fresh all-zero row. -/
def c10db : DB := {}

/-- C10 witness: the theorem applied to the row written for the empty
store; the store had no rows, so the row is freshly written and its
recycled water is 0. -/
theorem c10_witness : (waterRecordOf c10db "U1").recycled_water_in = 0 := by
  rcases c10_recycled_water_zero c10db "U1" (waterRecordOf c10db "U1")
      (List.mem_singleton_self _) with h | h
  · exact absurd h (List.not_mem_nil _)
  · exact h

/-- A material-balance run only writes the `material_balance` table. -/
theorem calcMB_preserves_water (ok : Bool) (db : DB) (uid : String) :
    (calcMaterialBalanceRun ok db uid).water_balance = db.water_balance := rfl

/-- A heat-balance run only writes the `heat_balance` table
(water untouched). -/
theorem calcHB_preserves_water (db : DB) (uid : String) :
    (calcHeatBalanceForUnit db uid).water_balance = db.water_balance := by
  unfold calcHeatBalanceForUnit
  cases findUnit db uid <;> rfl

/-- A heat-balance run only writes the `heat_balance` table
(material balance untouched). -/
theorem calcHB_preserves_mb (db : DB) (uid : String) :
    (calcHeatBalanceForUnit db uid).material_balance = db.material_balance := by
  unfold calcHeatBalanceForUnit
  cases findUnit db uid <;> rfl

/-- A heat-balance run only writes the `heat_balance` table
(equipment untouched). -/
theorem calcHB_preserves_equipment (db : DB) (uid : String) :
    (calcHeatBalanceForUnit db uid).equipment_list = db.equipment_list := by
  unfold calcHeatBalanceForUnit
  cases findUnit db uid <;> rfl

/-- A heat-balance run never deletes the unit's `heat_balance` row. -/
theorem calcHB_hasHB (db : DB) (uid : String)
    (h : hasHB db.heat_balance uid = true) :
    hasHB (calcHeatBalanceForUnit db uid).heat_balance uid = true := by
  unfold calcHeatBalanceForUnit
  cases findUnit db uid <;> exact h

/-- C2 (amended): propagating a unit delete through the sync engine
deletes only the derived Equipment record ("EQ-" + unit_id); the
material-balance handler recalculates and never deletes the unit's
MaterialBalance row (one is even present afterwards), the heat-balance
handler never deletes the HeatBalance row (in the real code its run
raises before writing anything, so the row survives unchanged), and
WaterBalance records are not touched at all.  (Balance rows do
disappear on unit delete in the running system, but only through the
SQLite schema's ON DELETE CASCADE foreign keys when the `process_flow`
row itself is deleted — outside the sync engine.) -/
theorem c2_unit_delete_cascade (db : DB) (uid : String) :
    (syncUnitDelete db uid).water_balance = db.water_balance
    ∧ (∀ e ∈ (syncUnitDelete db uid).equipment_list, ¬ e.equipment_id = "EQ-" ++ uid)
    ∧ hasMB (syncUnitDelete db uid).material_balance uid = true
    ∧ (hasHB db.heat_balance uid = true →
        hasHB (syncUnitDelete db uid).heat_balance uid = true) := by
  unfold syncUnitDelete
  refine ⟨?_, ?_, ?_, ?_⟩
  · rw [calcHB_preserves_water]
    rfl
  · intro e he
    rw [calcHB_preserves_equipment] at he
    have he2 : e ∈ db.equipment_list.filter
        (fun x => !(x.equipment_id == "EQ-" ++ uid)) := he
    have hcond := (List.mem_filter.mp he2).2
    simpa using hcond
  · rw [calcHB_preserves_mb]
    exact hasMB_mbTableAfter true (deleteEquipmentForUnit db uid) uid
  · intro h
    exact calcHB_hasHB _ uid h

/-- C2 concrete process unit. -/
def c2unit : ProcessUnit := { unit_id := "U1", name := "R", type := "reactor" }

/-- C2 concrete store: U1 exists with a MaterialBalance, HeatBalance and
WaterBalance row and its derived equipment record, and no streams. -/
def c2db : DB :=
  { process_flow := [c2unit],
    material_balance := [{ unit_id := "U1" }],
    heat_balance := [{ unit_id := "U1" }],
    water_balance := [{ unit_id := "U1" }],
    equipment_list := [{ equipment_id := "EQ-U1", name := "E", type := "T" }] }

/-- C2 counterexample: after propagating the delete for U1 through the
sync engine, the MaterialBalance, HeatBalance and WaterBalance rows for
U1 all still exist (only the equipment record is gone), refuting the
claim that the propagation deletes them. -/
theorem c2_counterexample :
    hasMB (syncUnitDelete c2db "U1").material_balance "U1" = true
    ∧ hasHB (syncUnitDelete c2db "U1").heat_balance "U1" = true
    ∧ (syncUnitDelete c2db "U1").water_balance.any (fun r => r.unit_id == "U1") = true
    ∧ (syncUnitDelete c2db "U1").equipment_list.any
        (fun e => e.equipment_id == "EQ-U1") = false := by
  decide

/-- C2 witness: the amended theorem applied to the concrete store,
discharging the existing-heat-row hypothesis. -/
theorem c2_witness :
    hasHB (syncUnitDelete c2db "U1").heat_balance "U1" = true :=
  (c2_unit_delete_cascade c2db "U1").2.2.2 (by decide)

/-- C3 (amended): for a unit with no incident stream, the per-unit mass
balance run reduces to the create-if-missing step: every existing row is
left unmodified, and when a MaterialBalance row for the unit already
exists the store is completely unchanged; but when none exists, a fresh
row (status "calculated", no payload) is inserted before the early
return. -/
theorem c3_no_stream_noop (db : DB) (uid : String)
    (h : streamsForUnit db uid = []) :
    calcMaterialBalanceForUnit db uid
      = { db with material_balance := ensureMBTable db.material_balance uid }
    ∧ (hasMB db.material_balance uid = true → calcMaterialBalanceForUnit db uid = db) := by
  have hin : mbInputs db uid = [] := by rw [mbInputs, h]; rfl
  have hout : mbOutputs db uid = [] := by rw [mbOutputs, h]; rfl
  have htab : mbTableAfter true db uid = ensureMBTable db.material_balance uid := by
    unfold mbTableAfter
    rw [hin, hout]
    simp
  constructor
  · show calcMaterialBalanceRun true db uid = _
    unfold calcMaterialBalanceRun
    rw [htab]
  · intro hmb
    show calcMaterialBalanceRun true db uid = db
    unfold calcMaterialBalanceRun
    rw [htab]
    unfold ensureMBTable
    rw [if_pos hmb]

/-- C3 concrete unit row. -/
def c3unit : ProcessUnit := { unit_id := "U1", name := "R", type := "reactor" }

/-- C3 concrete store: U1 exists, has no streams and no MaterialBalance
row. -/
def c3db : DB := { process_flow := [c3unit] }

/-- C3 counterexample: running the mass balance for stream-less U1 does
mutate stored state — a MaterialBalance row (status "calculated") is
created before the early return, refuting "no record is created or
modified". -/
theorem c3_counterexample :
    calcMaterialBalanceForUnit c3db "U1" ≠ c3db
    ∧ getMB (calcMaterialBalanceForUnit c3db "U1").material_balance "U1"
        = some { unit_id := "U1", balance_status := "calculated" } := by
  decide

/-- C3 witness store: U1 already has a MaterialBalance row. -/
def c3wdb : DB := { material_balance := [{ unit_id := "U1" }] }

/-- C3 witness: with an existing row and no streams the run is a strict
no-op. -/
theorem c3_witness : calcMaterialBalanceForUnit c3wdb "U1" = c3wdb :=
  (c3_no_stream_noop c3wdb "U1" (by decide)).2 (by decide)

/-- C4 (amended): when a MaterialBalance row for the unit already exists,
an exception raised during the computation phase leaves the store
completely unchanged (the guarantee the claim states); but when no row
exists, the create-if-missing insert is committed before the computation,
so such a run leaves a freshly inserted row with no result payload — a
partial write. -/
theorem c4_exception_no_partial_write (db : DB) (uid : String)
    (h : hasMB db.material_balance uid = true) :
    calcMaterialBalanceRun false db uid = db := by
  have htab : mbTableAfter false db uid = db.material_balance := by
    unfold mbTableAfter
    simp [ensureMBTable, h]
  unfold calcMaterialBalanceRun
  rw [htab]

/-- C4 concrete stream out of U1. -/
def c4stream : ProcessMaterial :=
  { stream_id := "S1", name := "feed", flow_rate := some 10, source_unit := some "U1" }

/-- C4 concrete unit row. -/
def c4unit : ProcessUnit := { unit_id := "U1", name := "R", type := "reactor" }

/-- C4 concrete store: U1 exists with one stream and no MaterialBalance
row.  On this store the computation phase does raise in the source: line
281 calls `ProcessMaterial.from_dict`, which the model class does not
define. -/
def c4db : DB := { process_flow := [c4unit], process_materials := [c4stream] }

/-- C4 counterexample: a run whose computation phase raises still changes
the store — the create-if-missing row (status "calculated", no payload)
was committed before the exception — refuting "either the full result
payload is persisted or no database row is inserted or updated". -/
theorem c4_counterexample :
    calcMaterialBalanceRun false c4db "U1" ≠ c4db
    ∧ getMB (calcMaterialBalanceRun false c4db "U1").material_balance "U1"
        = some { unit_id := "U1", balance_status := "calculated" } := by
  decide

/-- C4 witness store: U1 already has a MaterialBalance row. -/
def c4wdb : DB := { material_balance := [{ unit_id := "U1" }] }

/-- C4 witness: with an existing row, a failing run leaves the store
unchanged. -/
theorem c4_witness : calcMaterialBalanceRun false c4wdb "U1" = c4wdb :=
  c4_exception_no_partial_write c4wdb "U1" (by decide)

/-- C5 (amended): within one `sync_data` call on a rule-table module and
trigger, a handler exception is caught (not propagated to the caller)
and reported via a sync-failed event, but the remaining targets of the
pass are skipped: exactly the already-dispatched handlers plus the
failing one run; only when no handler raises is every target invoked,
with a success event. -/
theorem c5_sync_failure_isolation (fails : String → Bool) (m op : String)
    (h1 : inSyncRules m = true) (h2 : syncTriggers.contains op = true) :
    ((∀ t ∈ syncTargets m, fails t = false) →
      (sync_data fails m op).invoked = syncTargets m
      ∧ (sync_data fails m op).events
          = [(m ++ "->" ++ String.intercalate "," (syncTargets m), true)])
    ∧ (∀ pre t post, syncTargets m = pre ++ t :: post →
        (∀ s ∈ pre, fails s = false) → fails t = true →
        (sync_data fails m op).invoked = pre ++ [t]
        ∧ (sync_data fails m op).events = [(m, false)]) := by
  have hs : sync_data fails m op = ⟨(dispatchTargets fails (syncTargets m)).1,
      [(if (dispatchTargets fails (syncTargets m)).2 then
          m ++ "->" ++ String.intercalate "," (syncTargets m) else m,
        (dispatchTargets fails (syncTargets m)).2)]⟩ := by
    unfold sync_data
    rw [if_neg (by rw [h1]; decide), if_neg (by rw [h2]; decide)]
  constructor
  · intro hall
    rw [hs, dispatchTargets_all_ok fails (syncTargets m) hall]
    exact ⟨rfl, by simp⟩
  · intro pre t post hdecomp hpre ht
    rw [hs, hdecomp, dispatchTargets_first_fail fails pre t post hpre ht]
    exact ⟨rfl, by simp⟩

/-- C5 counterexample: for source module "process_flow" the handler of
target "material_balance" raising means the registered "heat_balance"
handler of the same pass is never invoked (a sync-failed event is
emitted), refuting "every other target module's handler in the same pass
is still invoked". -/
theorem c5_counterexample :
    ("heat_balance" ∈ syncTargets "process_flow")
    ∧ "heat_balance" ∉ (sync_data (fun t => t == "material_balance")
        "process_flow" "update").invoked
    ∧ (sync_data (fun t => t == "material_balance") "process_flow" "update").events
        = [("process_flow", false)] := by
  decide

/-- C5 witness: the amended theorem applied to module "process_flow",
operation "delete", with the "material_balance" handler failing. -/
theorem c5_witness :
    (sync_data (fun t => t == "material_balance") "process_flow" "delete").invoked
      = ["equipment_list", "material_balance"]
    ∧ (sync_data (fun t => t == "material_balance") "process_flow" "delete").events
      = [("process_flow", false)] :=
  (c5_sync_failure_isolation (fun t => t == "material_balance") "process_flow" "delete"
      (by decide) (by decide)).2
    ["equipment_list"] "material_balance" ["heat_balance"] (by decide) (by decide) (by decide)

/-- C6 (amended): the material-delete cascade never modifies any stream
composition: on any store with a candidate stream,
`_remove_material_from_streams` raises at the undefined
`ProcessMaterial.from_dict` before its first update (the exception is
caught by `sync_data`, which reports a sync-failed event), and with no
candidate the loop is skipped — so no component is removed and no
renormalization happens; every stream composition is exactly as it was
before the deletion. -/
theorem c6_cascade_never_modifies (db : DB) (mid : String) :
    removeMaterialFromStreams db mid = db
    ∧ (removeMaterialFromStreams db mid).process_materials.map ProcessMaterial.composition
        = db.process_materials.map ProcessMaterial.composition := by
  constructor
  · unfold removeMaterialFromStreams
    split <;> rfl
  · unfold removeMaterialFromStreams
    split <;> rfl

/-- C6 concrete stream whose only component is the deleted material. -/
def c6stream : ProcessMaterial :=
  { stream_id := "S1", name := "pure", composition := [("water", 1)] }

/-- C6 concrete store holding only that stream. -/
def c6db : DB := { process_materials := [c6stream] }

/-- C6 counterexample: deleting "water" leaves the stream exactly as it
was — the component is still present in its composition (the cascade
raises before modifying anything), refuting the claim that an affected
stream ends with the component removed and the remaining fractions
summing to 1. -/
theorem c6_counterexample :
    hasKey c6stream.composition "water" = true
    ∧ (removeMaterialFromStreams c6db "water").process_materials = [c6stream]
    ∧ (removeMaterialFromStreams c6db "water").process_materials.map
        (fun s => hasKey s.composition "water") = [true] := by
  decide
